import Mathlib

/-!
# Verification of the `testhelp` panic-assertion helpers

A shallow embedding of `pkg/testhelp/panic.go` (package `testhelp` of
`ocsw/go-testhelp`): test-assertion helpers that run a unit of code,
capture a propagating panic, and classify the panic payload against a
substring, regular-expression, or exact-value expectation, plus batch
(table-driven) variants.

Modelling choices, all taken from the Go source:

* A Go `interface{}` payload is the inductive `GoVal`, with one
  constructor per dynamic type exercised by the library and its tests
  (`nil`, `string`, an `error` value reduced to its `Error()` text, `int`,
  `float64`, the uncomparable composite types `[]string` and
  `map[string]string`, and the runtime errors Go itself raises).
* An `Invocation` (a Go `func()`) is observable only through whether it
  returns normally or panics, and with which payload; it is the sum type
  `completes | panics p`.  `runRecover` is the value `recover()` yields in
  a deferred function: `nil` on normal completion (and for `panic(nil)`,
  as in the Go versions this library targets), the payload otherwise.
* Go `==` on two `interface{}` values compares dynamic types first:
  different types give `false`; equal comparable types compare the
  values; equal uncomparable types make the runtime panic.  `goEq`
  models this as an `Option Bool`, `none` being the runtime panic.
* Go's `regexp` standard library is an external collaborator; the
  helpers are parametric in a `RegexpEngine` whose `compile` either
  fails with an error message or yields a compiled matcher.
* Functions that may themselves panic (`PanicsRE`, `PanicsVal` and the
  loops over them) return `Except GoVal …`, `.error pay` being a panic
  of the helper itself with payload `pay`.
* A batch runner's caller-supplied callbacks are modelled by the trace
  of callback events the runner emits, in order, each event carrying
  exactly the arguments the Go code passes to the callback.
-/

/-- A Go dynamic (`interface{}`) value as seen by the library: the panic
payloads, expectation values, and runtime-error values involved. -/
inductive GoVal where
  /-- The nil interface value (also what `recover()` yields when the
  invocation did not panic). -/
  | vnil
  /-- A `string` value. -/
  | vstr (s : String)
  /-- An `error` value, reduced to the text its `Error()` method returns. -/
  | verr (msg : String)
  /-- An `int` value. -/
  | vint (n : Int)
  /-- A `float64` value (the library's tests only use values exactly
  representable, so a rational carries them faithfully). -/
  | vfloat (x : ℚ)
  /-- A `[]string` value (a type Go cannot compare with `==`); the id
  stands for the slice header's identity. -/
  | vslice (id : Nat)
  /-- A `map[string]string` value (also uncomparable under `==`). -/
  | vmap (id : Nat)
  /-- A `runtime.Error` raised by the Go runtime itself, reduced to its
  `Error()` text. -/
  | vruntimeError (msg : String)
deriving DecidableEq, Repr

/-- The name of the dynamic type of a Go value (used to decide whether two
interface values have the same dynamic type). -/
def goTypeName : GoVal → String
  | .vnil => "<nil>"
  | .vstr _ => "string"
  | .verr _ => "*errors.errorString"
  | .vint _ => "int"
  | .vfloat _ => "float64"
  | .vslice _ => "[]string"
  | .vmap _ => "map[string]string"
  | .vruntimeError _ => "runtime.boundsError"

/-- Whether two Go interface values have the same dynamic type. -/
def sameGoType (a b : GoVal) : Bool :=
  goTypeName a == goTypeName b

/-- Whether the dynamic type of a Go value supports `==` (slices and maps
do not; comparing two of them makes the runtime panic). -/
def goComparable : GoVal → Bool
  | .vslice _ => false
  | .vmap _ => false
  | _ => true

/-- Go `==` on two `interface{}` values: `some b` when the comparison
yields `b`, `none` when the runtime panics because the two operands have
the same dynamic type but that type is not comparable. -/
def goEq (a b : GoVal) : Option Bool :=
  if sameGoType a b then
    if goComparable a then some (decide (a = b)) else none
  else some false

/-- A zero-argument unit of code under test (a Go `func()`), observable
only through whether it returns normally or panics, and with which
payload. -/
inductive Invocation where
  /-- The invocation runs to normal completion. -/
  | completes
  /-- The invocation panics with payload `p`. -/
  | panics (p : GoVal)
deriving DecidableEq, Repr

/-- The value `recover()` returns inside a deferred function wrapping the
invocation: `nil` when it completed normally (or panicked with a `nil`
payload), the panic payload otherwise. -/
def runRecover : Invocation → GoVal
  | .completes => .vnil
  | .panics p => p

/-- Model of `Panics` (panic.go:59): runs `f` under a deferred recover and reports
`recover() != nil`. -/
def Panics (f : Invocation) : Bool :=
  runRecover f != GoVal.vnil

/-- Model of `NotPanics` (panic.go:70): the negation of `Panics`. -/
def NotPanics (f : Invocation) : Bool :=
  !Panics f

/-- Model of `PanicsGet` (panic.go:80): `pVal = recover()`, `didPanic = pVal != nil`;
returns `(didPanic, pVal)`. -/
def PanicsGet (f : Invocation) : Bool × GoVal :=
  let pVal := runRecover f
  (pVal != GoVal.vnil, pVal)

/-- The Go type assertion `pVal.(string)`. -/
def asGoString : GoVal → Option String
  | .vstr s => some s
  | _ => none

/-- The Go type assertion `pVal.(error)` followed by `.Error()`: both
plain error values and runtime errors implement `error`. -/
def asGoError : GoVal → Option String
  | .verr msg => some msg
  | .vruntimeError msg => some msg
  | _ => none

/-- The text-coercion cascade of panic.go:140-149: try `pVal.(string)`,
then `pVal.(error)` (using its `Error()` text); `none` when the payload
has no text form. -/
def coerceText (p : GoVal) : Option String :=
  match asGoString p with
  | some s => some s
  | none => asGoError p

/-- Whether `sub` occurs as a contiguous sublist of `s` (the list-level
model of Go's `strings.Contains`). -/
def listContainsSub (s sub : List Char) : Bool :=
  match s with
  | [] => sub.isEmpty
  | _ :: cs => sub.isPrefixOf s || listContainsSub cs sub

/-- Go's `strings.Contains s sub`. -/
def strContains (s sub : String) : Bool :=
  listContainsSub s.toList sub.toList

/-- Model of `PanicsStr` (panic.go:136): captures the panic, coerces the payload to
text, and reports whether that text contains `wantStr`; `pContainsStr` is
`false` when the payload has no text form. -/
def PanicsStr (f : Invocation) (wantStr : String) : Bool × Bool × GoVal :=
  let pVal := runRecover f
  let didPanic := pVal != GoVal.vnil
  let pContainsStr :=
    match coerceText pVal with
    | some pStr => strContains pStr wantStr
    | none => false
  (didPanic, pContainsStr, pVal)

/-- Model of `NotPanicsGet` (panic.go:94): delegates to `PanicsStr f ""` and
negates the occurrence flag. -/
def NotPanicsGet (f : Invocation) : Bool × GoVal :=
  let r := PanicsStr f ""
  (!r.1, r.2.2)

/-- A compiled regular expression: all the library consumes of it is
`MatchString`. -/
structure Regexp where
  /-- Model of `(*regexp.Regexp).MatchString`. -/
  MatchString : String → Bool

/-- The host regular-expression library (Go's `regexp` package), an
external collaborator the helpers are parametric in: `compile` either
fails with an error message or yields a compiled matcher. -/
structure RegexpEngine where
  /-- Model of `regexp.Compile`: `.error msg` models a non-nil `err` whose text is
  `msg`. -/
  compile : String → Except String Regexp

/-- Model of `PanicsRE` (panic.go:170): compiles `wantRE` first and panics with a
`"Regexp could not be compiled: …"` string if compilation fails (before
`f` is ever run); otherwise captures the panic, coerces the payload to
text, and reports whether the compiled expression matches that text. -/
def PanicsRE (eng : RegexpEngine) (f : Invocation) (wantRE : String) :
    Except GoVal (Bool × Bool × GoVal) :=
  match eng.compile wantRE with
  | .error err =>
      .error (GoVal.vstr ("Regexp could not be compiled: " ++ err))
  | .ok re =>
      let pVal := runRecover f
      let didPanic := pVal != GoVal.vnil
      let pMatchesRE :=
        match coerceText pVal with
        | some pStr => re.MatchString pStr
        | none => false
      .ok (didPanic, pMatchesRE, pVal)

/-- Model of `PanicsVal` (panic.go:206): captures the panic and compares the
payload to `wantVal` with Go `==`; when the two have the same dynamic
type but that type is uncomparable, the comparison itself panics with a
`runtime error: comparing uncomparable type …` runtime error, which
propagates out of `PanicsVal`. -/
def PanicsVal (f : Invocation) (wantVal : GoVal) :
    Except GoVal (Bool × Bool × GoVal) :=
  let pVal := runRecover f
  let didPanic := pVal != GoVal.vnil
  match goEq pVal wantVal with
  | none =>
      .error (GoVal.vruntimeError
        ("runtime error: comparing uncomparable type " ++ goTypeName pVal))
  | some pEquals => .ok (didPanic, pEquals, pVal)

/-- Model of `PanicTest` (panic.go:26): a named invocation expected to panic. -/
structure PanicTest where
  /-- Diagnostic label. -/
  Name : String
  /-- The unit of code under test. -/
  F : Invocation
deriving Repr

/-- Model of `PanicStrTest` (panic.go:33): a named invocation plus a string the
panic value should contain. -/
structure PanicStrTest where
  /-- Diagnostic label. -/
  Name : String
  /-- The unit of code under test. -/
  F : Invocation
  /-- The substring expected in the panic payload's text. -/
  WantStr : String
deriving Repr

/-- Model of `PanicRETest` (panic.go:41): a named invocation plus a regular
expression the panic value should match. -/
structure PanicRETest where
  /-- Diagnostic label. -/
  Name : String
  /-- The unit of code under test. -/
  F : Invocation
  /-- The pattern the panic payload's text should match. -/
  WantRE : String
deriving Repr

/-- Model of `PanicValTest` (panic.go:49): a named invocation plus a value the
panic value should equal. -/
structure PanicValTest where
  /-- Diagnostic label. -/
  Name : String
  /-- The unit of code under test. -/
  F : Invocation
  /-- The value the panic payload should equal. -/
  WantVal : GoVal
deriving Repr

/-- A callback invocation recorded while `PanicsStrLoop` runs: one
constructor per caller-supplied callback, carrying the arguments the Go
code passes it. -/
inductive StrEvent where
  /-- A `notPanicFunc(testName)` call. -/
  | notPanic (testName : String)
  /-- A `notContainsFunc(testName, wantStr, pVal)` call. -/
  | notContains (testName : String) (wantStr : String) (pVal : GoVal)
deriving DecidableEq, Repr

/-- A callback invocation recorded while `PanicsRELoop` runs. -/
inductive REEvent where
  /-- A `notPanicFunc(testName)` call. -/
  | notPanic (testName : String)
  /-- A `notMatchesFunc(testName, wantRE, pVal)` call. -/
  | notMatches (testName : String) (wantRE : String) (pVal : GoVal)
deriving DecidableEq, Repr

/-- A callback invocation recorded while `PanicsValLoop` runs. -/
inductive ValEvent where
  /-- A `notPanicFunc(testName)` call. -/
  | notPanic (testName : String)
  /-- A `notEqualsFunc(testName, wantVal, pVal)` call. -/
  | notEquals (testName : String) (wantVal : GoVal) (pVal : GoVal)
deriving DecidableEq, Repr

/-- Model of `PanicsLoop` (panic.go:221): for each test whose invocation does not
panic, `elseFunc` is called with the test's name; the trace of those
calls, in order. -/
def PanicsLoop : List PanicTest → List String
  | [] => []
  | test :: rest =>
      (if !Panics test.F then [test.Name] else []) ++ PanicsLoop rest

/-- Model of `NotPanicsLoop` (panic.go:250): for each test whose invocation does
panic, `elseFunc` is called with the test's name. -/
def NotPanicsLoop : List PanicTest → List String
  | [] => []
  | test :: rest =>
      (if Panics test.F then [test.Name] else []) ++ NotPanicsLoop rest

/-- Model of `PanicsStrLoop` (panic.go:279): iterates the tests in order; each
case's substring expectation is `*wantStrAll` when `wantStrAll` is
non-nil, the case's own `WantStr` otherwise; a case that does not panic
emits `notPanicFunc(name)`, a panicking case whose payload fails the
contains check emits `notContainsFunc(name, realWantStr, pVal)`, and a
passing case emits nothing.  The result is the callback trace. -/
def PanicsStrLoop : List PanicStrTest → Option String → List StrEvent
  | [], _ => []
  | test :: rest, wantStrAll =>
      let realWantStr :=
        match wantStrAll with
        | some s => s
        | none => test.WantStr
      let r := PanicsStr test.F realWantStr
      (if !r.1 then [StrEvent.notPanic test.Name]
       else if !r.2.1 then
         [StrEvent.notContains test.Name realWantStr r.2.2]
       else []) ++ PanicsStrLoop rest wantStrAll

/-- Model of `PanicsRELoop` (panic.go:311): like `PanicsStrLoop` but with a
regular-expression check per case; a case whose (possibly overridden)
pattern fails to compile makes `PanicsRE`, and hence the loop itself,
panic on the spot.  The result is the callback trace emitted before any
such abort, paired with the abort payload when one occurred. -/
def PanicsRELoop (eng : RegexpEngine) :
    List PanicRETest → Option String → List REEvent × Option GoVal
  | [], _ => ([], none)
  | test :: rest, wantREAll =>
      let realWantRE :=
        match wantREAll with
        | some s => s
        | none => test.WantRE
      match PanicsRE eng test.F realWantRE with
      | .error e => ([], some e)
      | .ok r =>
          let evs :=
            if !r.1 then [REEvent.notPanic test.Name]
            else if !r.2.1 then
              [REEvent.notMatches test.Name realWantRE r.2.2]
            else []
          let rec' := PanicsRELoop eng rest wantREAll
          (evs ++ rec'.1, rec'.2)

/-- Model of `PanicsValLoop` (panic.go:342): like `PanicsStrLoop` but with a Go
`==` check per case; a case whose payload and (possibly overridden)
expected value are of the same uncomparable type makes `PanicsVal`, and
hence the loop itself, panic on the spot.  The result is the callback
trace emitted before any such abort, paired with the abort payload when
one occurred. -/
def PanicsValLoop :
    List PanicValTest → Option GoVal → List ValEvent × Option GoVal
  | [], _ => ([], none)
  | test :: rest, wantValAll =>
      let realWantVal :=
        match wantValAll with
        | some v => v
        | none => test.WantVal
      match PanicsVal test.F realWantVal with
      | .error e => ([], some e)
      | .ok r =>
          let evs :=
            if !r.1 then [ValEvent.notPanic test.Name]
            else if !r.2.1 then
              [ValEvent.notEquals test.Name realWantVal r.2.2]
            else []
          let rec' := PanicsValLoop rest wantValAll
          (evs ++ rec'.1, rec'.2)

/-- Whether every opening `[` or `(` in a pattern is balanced by a
matching closer, tracked with two depth counters. -/
def bracketsBalanced (cs : List Char) (square round : Int) : Bool :=
  match cs with
  | [] => square == 0 && round == 0
  | c :: rest =>
      if square < 0 || round < 0 then false
      else if c = '[' then bracketsBalanced rest (square + 1) round
      else if c = ']' then bracketsBalanced rest (square - 1) round
      else if c = '(' then bracketsBalanced rest square (round + 1)
      else if c = ')' then bracketsBalanced rest square (round - 1)
      else bracketsBalanced rest square round

/-- A concrete `RegexpEngine` used to exhibit concrete runs of the
helpers (the library itself is parametric in the engine): compilation
succeeds exactly when the pattern's brackets are balanced, and a
compiled pattern matches the strings containing it literally.  It stands
in for the host `regexp` library, whose internals are outside this
repository. -/
def simpleRegexpEngine : RegexpEngine where
  compile pat :=
    if bracketsBalanced pat.toList 0 0 then
      .ok { MatchString := fun s => strContains s pat }
    else
      .error ("missing closing bracket in " ++ pat)

/-- Whether a `PanicsStrLoop` callback event is an occurrence-check
failure (a `notPanicFunc` call) rather than a content-check failure. -/
def isOccurrenceEvent : StrEvent → Bool
  | .notPanic _ => true
  | .notContains _ _ _ => false

example : Panics (Invocation.panics (GoVal.vstr "ppp123")) = true := by decide
example : PanicsStr (Invocation.panics (GoVal.vstr "ppp123")) "ppp" =
    (true, true, GoVal.vstr "ppp123") := by decide
example : PanicsStr (Invocation.panics (GoVal.verr "ppp123")) "1234" =
    (true, false, GoVal.verr "ppp123") := by decide
example : PanicsStr (Invocation.panics (GoVal.vfloat 27.5)) "" =
    (true, false, GoVal.vfloat 27.5) := rfl
example : PanicsVal (Invocation.panics (GoVal.vint 120)) (GoVal.vint 120) =
    .ok (true, true, GoVal.vint 120) := rfl
example : PanicsVal (Invocation.panics (GoVal.vfloat 27)) (GoVal.vint 27) =
    .ok (true, false, GoVal.vfloat 27) := rfl
example : PanicsVal (Invocation.panics (GoVal.vslice 0)) (GoVal.vslice 0) =
    .error (GoVal.vruntimeError
      "runtime error: comparing uncomparable type []string") := rfl
example : simpleRegexpEngine.compile "[a-z" =
    .error "missing closing bracket in [a-z" := rfl
example : PanicsRE simpleRegexpEngine (Invocation.panics (GoVal.vstr "xp{3}y")) "p{3}" =
    .ok (true, true, GoVal.vstr "xp{3}y") := rfl

/-! ## Helper lemmas -/

/-- The empty list is a contiguous sublist of every list. -/
theorem listContainsSub_nil (l : List Char) : listContainsSub l [] = true := by
  cases l <;> simp [listContainsSub, List.isPrefixOf]

/-- Every string contains the empty string. -/
theorem strContains_empty (s : String) : strContains s "" = true :=
  listContainsSub_nil s.toList

/-- The occurrence flag of `PanicsStr` is exactly `Panics`. -/
theorem panicsStr_fst (f : Invocation) (w : String) :
    (PanicsStr f w).1 = Panics f := rfl

/-- The payload `PanicsStr` returns is exactly the recovered value. -/
theorem panicsStr_payload (f : Invocation) (w : String) :
    (PanicsStr f w).2.2 = runRecover f := rfl

/-! ## Claims -/

/-- C1: For every invocation that runs to normal completion, `Panics`
returns `false`, and `PanicsGet` returns `didPanic = false` with the
absent (`nil`) payload. -/
theorem panics_and_panicsGet_on_normal_completion :
    Panics Invocation.completes = false ∧
    PanicsGet Invocation.completes = (false, GoVal.vnil) :=
  ⟨rfl, rfl⟩

/-- C2 counterexample: the claim fails for the payload `nil`: an
invocation that panics with a `nil` payload makes `PanicsGet` return
`(false, nil)`, not `(true, nil)`, because occurrence is decided by
testing `recover()` against `nil`. -/
theorem panicsGet_nil_payload_counterexample :
    ¬ PanicsGet (Invocation.panics GoVal.vnil) = (true, GoVal.vnil) := by
  decide

/-- C2 (amended): for every invocation that panics with a payload `p`
other than `nil`, `PanicsGet` returns `(true, p)`. -/
theorem panicsGet_returns_panic_payload (p : GoVal) (hp : p ≠ GoVal.vnil) :
    PanicsGet (Invocation.panics p) = (true, p) := by
  simp [PanicsGet, runRecover, hp]

/-- C2 witness: the amended claim at the payload `"ppp123"`. -/
theorem panicsGet_returns_panic_payload_witness :
    GoVal.vstr "ppp123" ≠ GoVal.vnil ∧
    PanicsGet (Invocation.panics (GoVal.vstr "ppp123")) =
      (true, GoVal.vstr "ppp123") :=
  ⟨by decide, panicsGet_returns_panic_payload (GoVal.vstr "ppp123") (by decide)⟩

/-- C10: an invocation that panics with a `nil` payload is
indistinguishable, through `Panics` and `PanicsGet`, from one that
completes normally: both report `(false, nil)`. -/
theorem nil_panic_indistinguishable_from_completion :
    Panics (Invocation.panics GoVal.vnil) = false ∧
    PanicsGet (Invocation.panics GoVal.vnil) = (false, GoVal.vnil) ∧
    Panics (Invocation.panics GoVal.vnil) = Panics Invocation.completes ∧
    PanicsGet (Invocation.panics GoVal.vnil) = PanicsGet Invocation.completes :=
  ⟨rfl, rfl, rfl, rfl⟩

/-- C8: for every invocation that panics with a text-coercible payload
(a string, or an error reduced to its `Error()` text), `PanicsStr` with
the empty `wantStr` reports `pContainsStr = true`. -/
theorem panicsStr_empty_always_contains (p : GoVal) (s : String)
    (hco : coerceText p = some s) :
    (PanicsStr (Invocation.panics p) "").2.1 = true := by
  simp only [PanicsStr, runRecover, hco]
  exact strContains_empty s

/-- C8 witness: the claim at the string payload `"abc"`. -/
theorem panicsStr_empty_always_contains_witness :
    coerceText (GoVal.vstr "abc") = some "abc" ∧
    (PanicsStr (Invocation.panics (GoVal.vstr "abc")) "").2.1 = true :=
  ⟨rfl, panicsStr_empty_always_contains (GoVal.vstr "abc") "abc" rfl⟩

/-- C4: for every `wantRE` that fails to compile, `PanicsRE` panics with
the `"Regexp could not be compiled: …"` message instead of returning a
result, and its outcome is the same for every invocation (the invocation
is never run). -/
theorem panicsRE_invalid_pattern_aborts (eng : RegexpEngine)
    (wantRE msg : String) (hbad : eng.compile wantRE = .error msg)
    (f g : Invocation) :
    PanicsRE eng f wantRE =
      Except.error (GoVal.vstr ("Regexp could not be compiled: " ++ msg)) ∧
    PanicsRE eng f wantRE = PanicsRE eng g wantRE := by
  constructor <;> simp [PanicsRE, hbad]

/-- C4 witness: the claim at the uncompileable pattern `"[a-z"`, for a
panicking and a normally completing invocation. -/
theorem panicsRE_invalid_pattern_aborts_witness :
    simpleRegexpEngine.compile "[a-z" =
      .error "missing closing bracket in [a-z" ∧
    (PanicsRE simpleRegexpEngine (Invocation.panics (GoVal.vstr "ppp")) "[a-z" =
      Except.error (GoVal.vstr
        ("Regexp could not be compiled: " ++ "missing closing bracket in [a-z")) ∧
     PanicsRE simpleRegexpEngine (Invocation.panics (GoVal.vstr "ppp")) "[a-z" =
      PanicsRE simpleRegexpEngine Invocation.completes "[a-z") :=
  ⟨rfl,
   panicsRE_invalid_pattern_aborts simpleRegexpEngine "[a-z"
     "missing closing bracket in [a-z" rfl
     (Invocation.panics (GoVal.vstr "ppp")) Invocation.completes⟩

/-- C5: when the recovered payload and `wantVal` have the same dynamic
type but that type is not comparable under Go `==`, `PanicsVal` panics
with the runtime's comparison error instead of returning
`pEquals = false`. -/
theorem panicsVal_uncomparable_aborts (f : Invocation) (wantVal : GoVal)
    (hsame : sameGoType (runRecover f) wantVal = true)
    (hncmp : goComparable (runRecover f) = false) :
    PanicsVal f wantVal =
      Except.error (GoVal.vruntimeError
        ("runtime error: comparing uncomparable type "
          ++ goTypeName (runRecover f))) := by
  simp [PanicsVal, goEq, hsame, hncmp]

/-- C5 witness: the claim at two distinct `[]string` payloads (same
dynamic type, not comparable). -/
theorem panicsVal_uncomparable_aborts_witness :
    sameGoType (runRecover (Invocation.panics (GoVal.vslice 0)))
      (GoVal.vslice 1) = true ∧
    goComparable (runRecover (Invocation.panics (GoVal.vslice 0))) = false ∧
    PanicsVal (Invocation.panics (GoVal.vslice 0)) (GoVal.vslice 1) =
      Except.error (GoVal.vruntimeError
        ("runtime error: comparing uncomparable type "
          ++ goTypeName (runRecover (Invocation.panics (GoVal.vslice 0))))) :=
  ⟨rfl, rfl,
   panicsVal_uncomparable_aborts (Invocation.panics (GoVal.vslice 0))
     (GoVal.vslice 1) rfl rfl⟩

/-- C9: for every invocation that panics with a non-`nil` payload that is
neither a string nor an error, the substring and pattern content checks
report non-match (`false`) rather than erroring; in particular `PanicsRE`
on a payload of `27.5` with a compiling pattern returns
`(true, false, 27.5)`. -/
theorem content_checks_fail_without_text_coercion
    (p : GoVal) (hp : p ≠ GoVal.vnil) (hco : coerceText p = none)
    (wantStr : String)
    (eng : RegexpEngine) (wantRE : String) (re : Regexp)
    (hok : eng.compile wantRE = .ok re) :
    PanicsStr (Invocation.panics p) wantStr = (true, false, p) ∧
    PanicsRE eng (Invocation.panics p) wantRE = Except.ok (true, false, p) := by
  constructor
  · simp [PanicsStr, runRecover, hco, hp]
  · simp [PanicsRE, hok, runRecover, hco, hp]

/-- C9 witness: the end-to-end scenario `abort(27.5)` against the
pattern `"p{3}"` (which compiles) and the substring `"ppp"`. -/
theorem content_checks_fail_without_text_coercion_witness :
    GoVal.vfloat 27.5 ≠ GoVal.vnil ∧
    coerceText (GoVal.vfloat 27.5) = none ∧
    simpleRegexpEngine.compile "p{3}" =
      .ok { MatchString := fun s => strContains s "p{3}" } ∧
    (PanicsStr (Invocation.panics (GoVal.vfloat 27.5)) "ppp" =
      (true, false, GoVal.vfloat 27.5) ∧
     PanicsRE simpleRegexpEngine (Invocation.panics (GoVal.vfloat 27.5)) "p{3}" =
      Except.ok (true, false, GoVal.vfloat 27.5)) :=
  ⟨by decide, rfl, rfl,
   content_checks_fail_without_text_coercion (GoVal.vfloat 27.5) (by decide)
     rfl "ppp" simpleRegexpEngine "p{3}"
     { MatchString := fun s => strContains s "p{3}" } rfl⟩

/-- Filtering a head-of-loop event group for occurrence events keeps
exactly the `notPanicFunc` call, independently of the expectation used
for the content check. -/
theorem filter_strLoop_head (t : PanicStrTest) (w : String) :
    ((if !(PanicsStr t.F w).1 then [StrEvent.notPanic t.Name]
      else if !(PanicsStr t.F w).2.1 then
        [StrEvent.notContains t.Name w (PanicsStr t.F w).2.2]
      else []).filter isOccurrenceEvent) =
      if !Panics t.F then [StrEvent.notPanic t.Name] else [] := by
  rw [panicsStr_fst]
  cases hP : Panics t.F
  · simp [isOccurrenceEvent]
  · cases hC : (PanicsStr t.F w).2.1 <;> simp [hC, isOccurrenceEvent]

/-- C7: when a shared expectation override (`wantStrAll`, `wantREAll`,
or `wantValAll`) is supplied to a batch runner, every case's content
check uses the shared expectation in place of the case's own `WantStr`,
`WantRE`, or `WantVal` (running with the override equals running the
table with every case's expectation replaced by it), while the per-case
occurrence checks are unaffected (for the string loop, the
occurrence-failure callbacks are exactly those of the occurrence-only
runner `PanicsLoop`, whatever the override). -/
theorem loops_shared_expectation_override
    (tests : List PanicStrTest) (w : String)
    (vtests : List PanicValTest) (v : GoVal)
    (eng : RegexpEngine) (retests : List PanicRETest) (wre : String) :
    PanicsStrLoop tests (some w) =
      PanicsStrLoop (tests.map fun t => { t with WantStr := w }) none ∧
    PanicsValLoop vtests (some v) =
      PanicsValLoop (vtests.map fun t => { t with WantVal := v }) none ∧
    PanicsRELoop eng retests (some wre) =
      PanicsRELoop eng (retests.map fun t => { t with WantRE := wre }) none ∧
    ∀ ov : Option String,
      (PanicsStrLoop tests ov).filter isOccurrenceEvent =
        (PanicsLoop (tests.map fun t => { Name := t.Name, F := t.F })).map
          StrEvent.notPanic := by
  refine ⟨?_, ?_, ?_, ?_⟩
  · induction tests with
    | nil => rfl
    | cons t rest ih => simp [PanicsStrLoop, ih]
  · induction vtests with
    | nil => rfl
    | cons t rest ih => simp [PanicsValLoop, ih]
  · induction retests with
    | nil => rfl
    | cons t rest ih => simp [PanicsRELoop, ih]
  · intro ov
    induction tests with
    | nil => rfl
    | cons t rest ih =>
        simp only [PanicsStrLoop, PanicsLoop, List.map_cons, List.filter_append,
          ih, filter_strLoop_head]
        cases hP : Panics t.F <;> simp

/-- C3: in a batch run of the content-checking loops (`PanicsStrLoop`,
`PanicsRELoop`, and `PanicsValLoop`), the case at the head of the table
is dispatched to exactly one outcome — no panic emits only
`notPanicFunc(name)`; panic with a failed content check emits only the
content-mismatch callback with the case information and the payload;
panic with a passing check emits nothing — and the rest of the run
continues unchanged (for the pattern loop, provided this case's pattern
compiles, so that `PanicsRE` returns the triple `r`, whose occurrence
flag and payload are proved to be the case's own; for the value loop,
provided the comparison of this case does not abort). -/
theorem loops_dispatch_each_case_once
    (test : PanicStrTest) (rest : List PanicStrTest) (ovs : Option String)
    (vtest : PanicValTest) (vrest : List PanicValTest) (ovv : Option GoVal)
    (hcmp : goEq (runRecover vtest.F) (Option.getD ovv vtest.WantVal) ≠ none)
    (eng : RegexpEngine) (rtest : PanicRETest) (rrest : List PanicRETest)
    (ovr : Option String) (r : Bool × Bool × GoVal)
    (hre : PanicsRE eng rtest.F (Option.getD ovr rtest.WantRE) =
      Except.ok r) :
    PanicsStrLoop (test :: rest) ovs =
      (if Panics test.F = false then [StrEvent.notPanic test.Name]
       else if (PanicsStr test.F (Option.getD ovs test.WantStr)).2.1 = false then
         [StrEvent.notContains test.Name (Option.getD ovs test.WantStr)
            (runRecover test.F)]
       else []) ++ PanicsStrLoop rest ovs ∧
    PanicsValLoop (vtest :: vrest) ovv =
      ((if Panics vtest.F = false then [ValEvent.notPanic vtest.Name]
        else if goEq (runRecover vtest.F) (Option.getD ovv vtest.WantVal) =
            some false then
          [ValEvent.notEquals vtest.Name (Option.getD ovv vtest.WantVal)
             (runRecover vtest.F)]
        else []) ++ (PanicsValLoop vrest ovv).1,
       (PanicsValLoop vrest ovv).2) ∧
    (PanicsRELoop eng (rtest :: rrest) ovr =
      ((if r.1 = false then [REEvent.notPanic rtest.Name]
        else if r.2.1 = false then
          [REEvent.notMatches rtest.Name (Option.getD ovr rtest.WantRE) r.2.2]
        else []) ++ (PanicsRELoop eng rrest ovr).1,
       (PanicsRELoop eng rrest ovr).2) ∧
     r.1 = Panics rtest.F ∧ r.2.2 = runRecover rtest.F) := by
  refine ⟨?_, ?_, ?_, ?_⟩
  · cases ovs with
    | none =>
        simp only [PanicsStrLoop, Option.getD, panicsStr_fst, panicsStr_payload]
        cases hP : Panics test.F
        · simp
        · cases hC : (PanicsStr test.F test.WantStr).2.1 <;>
            simp [panicsStr_payload, hC]
    | some w =>
        simp only [PanicsStrLoop, Option.getD, panicsStr_fst, panicsStr_payload]
        cases hP : Panics test.F
        · simp
        · cases hC : (PanicsStr test.F w).2.1 <;>
            simp [panicsStr_payload, hC]
  · cases hg : goEq (runRecover vtest.F) (Option.getD ovv vtest.WantVal) with
    | none => exact absurd hg hcmp
    | some b =>
        cases ovv with
        | none =>
            simp only [Option.getD] at hg ⊢
            simp only [PanicsValLoop, PanicsVal, hg]
            cases hP : Panics vtest.F
            · simp [Panics] at hP
              simp [hP]
            · cases b <;>
              · simp [Panics] at hP
                simp [hP]
        | some v =>
            simp only [Option.getD] at hg ⊢
            simp only [PanicsValLoop, PanicsVal, hg]
            cases hP : Panics vtest.F
            · simp [Panics] at hP
              simp [hP]
            · cases b <;>
              · simp [Panics] at hP
                simp [hP]
  · cases ovr with
    | none =>
        simp only [Option.getD] at hre
        simp only [PanicsRELoop, hre]
        cases hb : r.1
        · simp
        · cases hb2 : r.2.1 <;> simp [hb2]
    | some wr =>
        simp only [Option.getD] at hre
        simp only [PanicsRELoop, hre]
        cases hb : r.1
        · simp
        · cases hb2 : r.2.1 <;> simp [hb2]
  · cases hc : eng.compile (Option.getD ovr rtest.WantRE) with
    | error e => simp [PanicsRE, hc] at hre
    | ok re =>
        simp only [PanicsRE, hc, Except.ok.injEq] at hre
        subst hre
        exact ⟨rfl, rfl⟩

/-- C3 witness: the dispatch at a concrete non-panicking string case, a
concrete panicking value case whose payload fails the equality check,
and a concrete panicking pattern case whose payload fails the match. -/
theorem loops_dispatch_each_case_once_witness :
    goEq (runRecover (Invocation.panics (GoVal.vstr "b")))
        (Option.getD none (GoVal.vstr "z")) ≠ none ∧
    PanicsRE simpleRegexpEngine (Invocation.panics (GoVal.vstr "m"))
        (Option.getD none "zzz") =
      Except.ok (true, false, GoVal.vstr "m") ∧
    (PanicsStrLoop [⟨"A", Invocation.completes, "x"⟩] none =
      (if Panics Invocation.completes = false then [StrEvent.notPanic "A"]
       else if (PanicsStr Invocation.completes (Option.getD none "x")).2.1 =
           false then
         [StrEvent.notContains "A" (Option.getD none "x")
            (runRecover Invocation.completes)]
       else []) ++ PanicsStrLoop [] none ∧
     PanicsValLoop [⟨"B", Invocation.panics (GoVal.vstr "b"), GoVal.vstr "z"⟩]
        none =
      ((if Panics (Invocation.panics (GoVal.vstr "b")) = false then
          [ValEvent.notPanic "B"]
        else if goEq (runRecover (Invocation.panics (GoVal.vstr "b")))
            (Option.getD none (GoVal.vstr "z")) = some false then
          [ValEvent.notEquals "B" (Option.getD none (GoVal.vstr "z"))
             (runRecover (Invocation.panics (GoVal.vstr "b")))]
        else []) ++ (PanicsValLoop [] none).1,
       (PanicsValLoop [] none).2) ∧
     (PanicsRELoop simpleRegexpEngine
        [⟨"C", Invocation.panics (GoVal.vstr "m"), "zzz"⟩] none =
      ((if (true, false, GoVal.vstr "m").1 = false then [REEvent.notPanic "C"]
        else if (true, false, GoVal.vstr "m").2.1 = false then
          [REEvent.notMatches "C" (Option.getD none "zzz")
             (true, false, GoVal.vstr "m").2.2]
        else []) ++ (PanicsRELoop simpleRegexpEngine [] none).1,
       (PanicsRELoop simpleRegexpEngine [] none).2) ∧
      (true, false, GoVal.vstr "m").1 =
        Panics (Invocation.panics (GoVal.vstr "m")) ∧
      (true, false, GoVal.vstr "m").2.2 =
        runRecover (Invocation.panics (GoVal.vstr "m")))) :=
  ⟨by decide, rfl,
   loops_dispatch_each_case_once ⟨"A", Invocation.completes, "x"⟩ [] none
     ⟨"B", Invocation.panics (GoVal.vstr "b"), GoVal.vstr "z"⟩ [] none
     (by decide) simpleRegexpEngine
     ⟨"C", Invocation.panics (GoVal.vstr "m"), "zzz"⟩ [] none
     (true, false, GoVal.vstr "m") rfl⟩

/-- Splitting a regular-expression batch after an abort-free prefix: the
prefix's callbacks happen first, then the run continues through the rest
of the table. -/
theorem panicsRELoop_append (eng : RegexpEngine) (l1 l2 : List PanicRETest)
    (ov : Option String) (h : (PanicsRELoop eng l1 ov).2 = none) :
    PanicsRELoop eng (l1 ++ l2) ov =
      ((PanicsRELoop eng l1 ov).1 ++ (PanicsRELoop eng l2 ov).1,
       (PanicsRELoop eng l2 ov).2) := by
  induction l1 with
  | nil => simp [PanicsRELoop]
  | cons t rest ih =>
      cases ov with
      | none =>
          cases hre : PanicsRE eng t.F t.WantRE with
          | error e =>
              simp only [PanicsRELoop, hre] at h
              simp at h
          | ok r =>
              simp only [PanicsRELoop, hre] at h
              simp only [List.cons_append, PanicsRELoop, hre]
              simp [ih h, List.append_assoc]
      | some w =>
          cases hre : PanicsRE eng t.F w with
          | error e =>
              simp only [PanicsRELoop, hre] at h
              simp at h
          | ok r =>
              simp only [PanicsRELoop, hre] at h
              simp only [List.cons_append, PanicsRELoop, hre]
              simp [ih h, List.append_assoc]

/-- Splitting a value batch after an abort-free prefix: the prefix's
callbacks happen first, then the run continues through the rest of the
table. -/
theorem panicsValLoop_append (l1 l2 : List PanicValTest)
    (ov : Option GoVal) (h : (PanicsValLoop l1 ov).2 = none) :
    PanicsValLoop (l1 ++ l2) ov =
      ((PanicsValLoop l1 ov).1 ++ (PanicsValLoop l2 ov).1,
       (PanicsValLoop l2 ov).2) := by
  induction l1 with
  | nil => simp [PanicsValLoop]
  | cons t rest ih =>
      cases ov with
      | none =>
          cases hpv : PanicsVal t.F t.WantVal with
          | error e =>
              simp only [PanicsValLoop, hpv] at h
              simp at h
          | ok r =>
              simp only [PanicsValLoop, hpv] at h
              simp only [List.cons_append, PanicsValLoop, hpv]
              simp [ih h, List.append_assoc]
      | some v =>
          cases hpv : PanicsVal t.F v with
          | error e =>
              simp only [PanicsValLoop, hpv] at h
              simp at h
          | ok r =>
              simp only [PanicsValLoop, hpv] at h
              simp only [List.cons_append, PanicsValLoop, hpv]
              simp [ih h, List.append_assoc]

/-- C6: a fatal classifier abort — an uncompileable pattern in
`PanicsRELoop`, or an uncomparable-value comparison in `PanicsValLoop` —
hit at some case of a batch propagates out of the batch runner
immediately: the cases before it are processed normally (their callback
trace is exactly the prefix's own run), the aborting payload escapes,
and no case after it contributes anything. -/
theorem loops_abort_propagates_immediately (eng : RegexpEngine)
    (pre : List PanicRETest) (test : PanicRETest) (post : List PanicRETest)
    (ovr : Option String) (msg : String)
    (hpre : (PanicsRELoop eng pre ovr).2 = none)
    (hbad : eng.compile (Option.getD ovr test.WantRE) = .error msg)
    (vpre : List PanicValTest) (vtest : PanicValTest) (vpost : List PanicValTest)
    (ovv : Option GoVal)
    (hvpre : (PanicsValLoop vpre ovv).2 = none)
    (hvbad : goEq (runRecover vtest.F) (Option.getD ovv vtest.WantVal) = none) :
    PanicsRELoop eng (pre ++ test :: post) ovr =
      ((PanicsRELoop eng pre ovr).1,
       some (GoVal.vstr ("Regexp could not be compiled: " ++ msg))) ∧
    PanicsValLoop (vpre ++ vtest :: vpost) ovv =
      ((PanicsValLoop vpre ovv).1,
       some (GoVal.vruntimeError
         ("runtime error: comparing uncomparable type "
           ++ goTypeName (runRecover vtest.F)))) := by
  constructor
  · rw [panicsRELoop_append eng pre (test :: post) ovr hpre]
    have hstep : PanicsRELoop eng (test :: post) ovr =
        ([], some (GoVal.vstr ("Regexp could not be compiled: " ++ msg))) := by
      cases ovr with
      | none =>
          simp only [Option.getD] at hbad
          simp [PanicsRELoop, PanicsRE, hbad]
      | some w =>
          simp only [Option.getD] at hbad
          simp [PanicsRELoop, PanicsRE, hbad]
    rw [hstep]
    simp
  · rw [panicsValLoop_append vpre (vtest :: vpost) ovv hvpre]
    have hstep : PanicsValLoop (vtest :: vpost) ovv =
        ([], some (GoVal.vruntimeError
          ("runtime error: comparing uncomparable type "
            ++ goTypeName (runRecover vtest.F)))) := by
      cases ovv with
      | none =>
          simp only [Option.getD] at hvbad
          simp [PanicsValLoop, PanicsVal, hvbad]
      | some v =>
          simp only [Option.getD] at hvbad
          simp [PanicsValLoop, PanicsVal, hvbad]
    rw [hstep]
    simp

/-- C6 witness: a three-case regular-expression batch whose middle case
has the uncompileable pattern `"[a-z"`, and a three-case value batch
whose middle case compares two `[]string` payloads; in both, the first
case's callback fires, the abort escapes, and the last case never runs. -/
theorem loops_abort_propagates_immediately_witness :
    (PanicsRELoop simpleRegexpEngine
      [⟨"P", Invocation.completes, "ppp"⟩] none).2 = none ∧
    simpleRegexpEngine.compile (Option.getD none "[a-z") =
      .error "missing closing bracket in [a-z" ∧
    (PanicsValLoop [⟨"VP", Invocation.completes, GoVal.vstr "s"⟩] none).2 =
      none ∧
    goEq (runRecover (Invocation.panics (GoVal.vslice 0)))
      (Option.getD none (GoVal.vslice 1)) = none ∧
    (PanicsRELoop simpleRegexpEngine
        ([⟨"P", Invocation.completes, "ppp"⟩] ++
          ⟨"R", Invocation.panics (GoVal.vstr "x"), "[a-z"⟩ ::
            [⟨"Q", Invocation.panics (GoVal.vstr "y"), "zzz"⟩]) none =
      ((PanicsRELoop simpleRegexpEngine
          [⟨"P", Invocation.completes, "ppp"⟩] none).1,
       some (GoVal.vstr
         ("Regexp could not be compiled: " ++
           "missing closing bracket in [a-z"))) ∧
     PanicsValLoop
        ([⟨"VP", Invocation.completes, GoVal.vstr "s"⟩] ++
          ⟨"V", Invocation.panics (GoVal.vslice 0), GoVal.vslice 1⟩ ::
            [⟨"W", Invocation.completes, GoVal.vnil⟩]) none =
      ((PanicsValLoop [⟨"VP", Invocation.completes, GoVal.vstr "s"⟩] none).1,
       some (GoVal.vruntimeError
         ("runtime error: comparing uncomparable type "
           ++ goTypeName (runRecover (Invocation.panics (GoVal.vslice 0))))))) :=
  ⟨rfl, rfl, rfl, rfl,
   loops_abort_propagates_immediately simpleRegexpEngine
     [⟨"P", Invocation.completes, "ppp"⟩]
     ⟨"R", Invocation.panics (GoVal.vstr "x"), "[a-z"⟩
     [⟨"Q", Invocation.panics (GoVal.vstr "y"), "zzz"⟩]
     none "missing closing bracket in [a-z" rfl rfl
     [⟨"VP", Invocation.completes, GoVal.vstr "s"⟩]
     ⟨"V", Invocation.panics (GoVal.vslice 0), GoVal.vslice 1⟩
     [⟨"W", Invocation.completes, GoVal.vnil⟩]
     none rfl rfl⟩
